import Mathlib

/-!
# Verification of the bubble-shooter core (hex grid, physics, gestures)

Shallow embedding of the game's core algorithms:

* `src/game/engine/grid.ts` — grid construction, flood-fill match detection,
  floating-bubble cleanup, insertion (`addBubbleToGrid`), removal.
* `src/game/engine/physics.ts` — projectile integration (`updateProjectile`),
  hex addressing (`gridToPosition` / `getGridPosition`).
* `src/game/components/GrabDemo.tsx` — pinch hysteresis constants, the
  rapid-release / release-counter state machine, `clampLaunchAngle`, and the
  `OneEuroFilter` guards.
* `src/game/hooks/useGameEngine.ts` — the collision-resolution / scoring
  fragment of `updateGame`.

JavaScript numbers are modelled as exact rationals (`ℚ`) except where the
source uses transcendental functions (`Math.cos`, `Math.sin`, `Math.atan2`,
`Math.PI`), which are modelled over `ℝ`.  `Math.sqrt(s) < t` comparisons with
`s ≥ 0` are embedded as the equivalent decidable test `0 < t ∧ s < t * t`
(the equivalence with the real square root is proved where a claim mentions
distances).  JS `%` is truncated remainder, i.e. `Int.tmod`.
-/

namespace BubbleShooter

/-- 2-D vector with exact rational coordinates (source: `Vector2D`). -/
structure Vector2D where
  x : ℚ
  y : ℚ
  deriving DecidableEq, Repr

/-- Bubble colors (source: `BubbleColor` in `game/types/index.ts`). -/
inductive BubbleColor where
  | red | blue | green | yellow | purple | cyan
  deriving DecidableEq, Repr

/-- Game configuration (source: `GameConfig` in `game/types/index.ts`).
Only the fields consumed by the embedded functions are kept. -/
structure GameConfig where
  canvasWidth : ℚ
  canvasHeight : ℚ
  gridColumns : ℤ
  bubbleRadius : ℚ
  dangerLineY : ℚ
  projectileSpeed : ℚ
  minPullDistance : ℚ
  deriving DecidableEq, Repr

/-- A placed bubble (source: `Bubble`).  The source id is the string
`bubble-N` generated from a global counter; we model the counter value `N`
directly as a natural number. -/
structure Bubble where
  id : ℕ
  color : BubbleColor
  position : Vector2D
  row : ℤ
  col : ℤ
  radius : ℚ
  deriving DecidableEq, Repr

/-- An in-flight projectile (source: `Projectile`). -/
structure Projectile where
  position : Vector2D
  velocity : Vector2D
  color : BubbleColor
  radius : ℚ
  deriving DecidableEq, Repr

/-- The `DEFAULT_CONFIG`-style config actually used by `GrabDemo.tsx`
(`GAME_CONFIG`): canvas 500×750, 9 columns, radius 22. -/
def GAME_CONFIG : GameConfig :=
  { canvasWidth := 500
    canvasHeight := 750
    gridColumns := 9
    bubbleRadius := 22
    dangerLineY := 485
    projectileSpeed := 14
    minPullDistance := 20 }

/-- JS `row % 2 === 1` (truncated remainder, as JS `%`). -/
def isOffsetRow (row : ℤ) : Bool := row.tmod 2 == 1

/-- `gridToPosition` (source: `physics.ts:311-329`): pixel center of a hex
cell.  The source row pitch is `diameter * 0.866`; `0.866 = 433/500`. -/
def gridToPosition (row col : ℤ) (config : GameConfig) : Vector2D :=
  let bubbleDiameter := config.bubbleRadius * 2
  let rowHeight := bubbleDiameter * (433 / 500)
  let rowOffset : ℚ := if isOffsetRow row then config.bubbleRadius else 0
  let gridWidth := (config.gridColumns : ℚ) * bubbleDiameter
  let centerOffset := (config.canvasWidth - gridWidth) / 2
  { x := (col : ℚ) * bubbleDiameter + config.bubbleRadius + rowOffset + centerOffset
    y := (row : ℚ) * rowHeight + config.bubbleRadius }

/-- `getGridPosition` (source: `physics.ts:289-309`): inverse hex addressing,
snapping a continuous position to a (row, col) cell with the column clamped
to the valid range for the row's parity. -/
def getGridPosition (position : Vector2D) (config : GameConfig) : ℤ × ℤ :=
  let bubbleDiameter := config.bubbleRadius * 2
  let rowHeight := bubbleDiameter * (433 / 500)
  let gridWidth := (config.gridColumns : ℚ) * bubbleDiameter
  let centerOffset := (config.canvasWidth - gridWidth) / 2
  let row := max 0 ⌊position.y / rowHeight⌋
  let rowOffset : ℚ := if isOffsetRow row then config.bubbleRadius else 0
  let col := ⌊(position.x - centerOffset - rowOffset) / bubbleDiameter⌋
  (row, max 0 (min col (config.gridColumns - 1 - (if isOffsetRow row then 1 else 0))))

/-- C1: Grid addressing round-trip.  For every valid grid address
`(row, col)` — `0 ≤ row`, `0 ≤ col ≤ gridColumns - 1 - (1 if row is odd
else 0)` — and any config with positive `bubbleRadius` and `gridColumns ≥ 1`,
`getGridPosition (gridToPosition row col config) config = (row, col)`. -/
theorem grid_addressing_roundtrip (config : GameConfig) (row col : ℤ)
    (hr : 0 ≤ row) (hc0 : 0 ≤ col)
    (hcb : col ≤ config.gridColumns - 1 - (if isOffsetRow row then 1 else 0))
    (hrad : 0 < config.bubbleRadius) (hcols : 1 ≤ config.gridColumns) :
    getGridPosition (gridToPosition row col config) config = (row, col) := by
  have hr2 : config.bubbleRadius ≠ 0 := ne_of_gt hrad
  simp only [getGridPosition, gridToPosition]
  have hyq : ((row : ℚ) * (config.bubbleRadius * 2 * (433 / 500)) + config.bubbleRadius) /
      (config.bubbleRadius * 2 * (433 / 500)) = (row : ℚ) + 250 / 433 := by
    field_simp
    ring
  have hfr : ⌊((row : ℚ) * (config.bubbleRadius * 2 * (433 / 500)) + config.bubbleRadius) /
      (config.bubbleRadius * 2 * (433 / 500))⌋ = row := by
    rw [hyq, Int.floor_int_add]
    norm_num
  simp only [hfr, max_eq_right hr]
  have hxq : ((col : ℚ) * (config.bubbleRadius * 2) + config.bubbleRadius +
      (if isOffsetRow row then config.bubbleRadius else 0) +
      (config.canvasWidth - (config.gridColumns : ℚ) * (config.bubbleRadius * 2)) / 2 -
      (config.canvasWidth - (config.gridColumns : ℚ) * (config.bubbleRadius * 2)) / 2 -
      (if isOffsetRow row then config.bubbleRadius else 0)) /
      (config.bubbleRadius * 2) = (col : ℚ) + 1 / 2 := by
    field_simp
    ring
  rw [hxq]
  have hfc : ⌊((col : ℚ) + 1 / 2)⌋ = col := by
    rw [Int.floor_int_add]
    norm_num
  rw [hfc, min_eq_left hcb, max_eq_right hc0]

/-! ## Projectile physics (`physics.ts:232-287`) -/

/-- Decidable embedding of the source comparison `Math.sqrt s < t` for
`s ≥ 0`: equivalent to `0 < t ∧ s < t * t` (see `sqrtLt_iff_sqrt_lt`). -/
def sqrtLt (s t : ℚ) : Bool := decide (0 < t) && decide (s < t * t)

/-- For nonnegative `s`, `sqrtLt s t` is exactly `Real.sqrt s < t`. -/
theorem sqrtLt_iff_sqrt_lt (s t : ℚ) (hs : 0 ≤ s) :
    sqrtLt s t = true ↔ Real.sqrt (s : ℝ) < (t : ℝ) := by
  simp only [sqrtLt, Bool.and_eq_true, decide_eq_true_eq]
  constructor
  · rintro ⟨ht, hlt⟩
    have ht' : (0 : ℝ) < (t : ℝ) := by exact_mod_cast ht
    rw [Real.sqrt_lt' ht']
    have : ((s : ℝ)) < (t : ℝ) * (t : ℝ) := by exact_mod_cast hlt
    nlinarith
  · intro h
    have ht' : (0 : ℝ) < (t : ℝ) :=
      lt_of_le_of_lt (Real.sqrt_nonneg _) h
    have hlt := (Real.sqrt_lt' ht').mp h
    constructor
    · exact_mod_cast ht'
    · have : ((s : ℝ)) < (t : ℝ) * (t : ℝ) := by nlinarith
      exact_mod_cast this

/-- The per-step integrated position: `position + velocity`
(source: `physics.ts:238-241`). -/
def integratedPosition (p : Projectile) : Vector2D :=
  { x := p.position.x + p.velocity.x, y := p.position.y + p.velocity.y }

/-- Wall-collision resolution (source: `physics.ts:243-252`): if the
integrated position penetrates the left (resp. right) wall, its x is clamped
to the wall and the horizontal velocity component is negated (undamped); the
vertical component is untouched. Returns (new position, new velocity). -/
def wallResolved (p : Projectile) (config : GameConfig) : Vector2D × Vector2D :=
  let np := integratedPosition p
  if np.x - p.radius < 0 then
    ({ x := p.radius, y := np.y }, { x := -p.velocity.x, y := p.velocity.y })
  else if np.x + p.radius > config.canvasWidth then
    ({ x := config.canvasWidth - p.radius, y := np.y },
     { x := -p.velocity.x, y := p.velocity.y })
  else (np, p.velocity)

/-- The circle-circle proximity test of the bubble-collision loop
(source: `physics.ts:264-277`): `Math.sqrt(dx*dx + dy*dy) < projectile.radius
+ bubble.radius - 2`, with `np` the wall-resolved position. -/
def projCollides (np : Vector2D) (p : Projectile) (b : Bubble) : Bool :=
  sqrtLt ((np.x - b.position.x) * (np.x - b.position.x) +
          (np.y - b.position.y) * (np.y - b.position.y))
    (p.radius + b.radius - 2)

/-- `updateProjectile` (source: `physics.ts:232-287`): integrate position by
velocity (no gravity), bounce off side walls, then either (a) terminal
collision — ceiling crossed or some grid bubble too close — returning the
snapped grid cell, or (b) the moved projectile. -/
def updateProjectile (p : Projectile) (config : GameConfig) (bubbles : List Bubble) :
    Option Projectile × Option (ℤ × ℤ) :=
  let np := (wallResolved p config).1
  let nv := (wallResolved p config).2
  if np.y - p.radius < 0 then
    (none, some (getGridPosition np config))
  else if bubbles.any (fun b => projCollides np p b) then
    (none, some (getGridPosition np config))
  else
    (some { p with position := np, velocity := nv }, none)

/-- C2: grid-mode projectile step. With `np, nv` the wall-resolved position
and velocity: (1) gravity-free undamped bounce — the new velocity's vertical
component equals the old one and its horizontal magnitude is unchanged, the
new y is exactly `old y + vy`; (2) the step returns a terminal collision
(`none` projectile plus the cell `getGridPosition np`) precisely when the
top edge crosses the ceiling (`np.y - radius < 0`) or the true euclidean
distance from `np` to some existing bubble is below the combined radii minus
the 2-pixel tolerance; (3) otherwise it returns the moved projectile and no
collision. -/
theorem updateProjectile_grid_mode (p : Projectile) (config : GameConfig)
    (bubbles : List Bubble) :
    ((wallResolved p config).2.y = p.velocity.y ∧
      |(wallResolved p config).2.x| = |p.velocity.x| ∧
      (wallResolved p config).1.y = p.position.y + p.velocity.y) ∧
    (updateProjectile p config bubbles =
        (none, some (getGridPosition (wallResolved p config).1 config)) ↔
      ((wallResolved p config).1.y - p.radius < 0 ∨
        ∃ b ∈ bubbles,
          Real.sqrt ((((wallResolved p config).1.x - b.position.x) *
              ((wallResolved p config).1.x - b.position.x) +
              ((wallResolved p config).1.y - b.position.y) *
              ((wallResolved p config).1.y - b.position.y) : ℚ) : ℝ) <
            ((p.radius + b.radius - 2 : ℚ) : ℝ))) ∧
    (¬ ((wallResolved p config).1.y - p.radius < 0 ∨
        ∃ b ∈ bubbles,
          Real.sqrt ((((wallResolved p config).1.x - b.position.x) *
              ((wallResolved p config).1.x - b.position.x) +
              ((wallResolved p config).1.y - b.position.y) *
              ((wallResolved p config).1.y - b.position.y) : ℚ) : ℝ) <
            ((p.radius + b.radius - 2 : ℚ) : ℝ)) →
      updateProjectile p config bubbles =
        (some { p with position := (wallResolved p config).1,
                       velocity := (wallResolved p config).2 }, none)) := by
  have hwall : (wallResolved p config).2.y = p.velocity.y ∧
      |(wallResolved p config).2.x| = |p.velocity.x| ∧
      (wallResolved p config).1.y = p.position.y + p.velocity.y := by
    unfold wallResolved integratedPosition
    dsimp only
    split_ifs
    · exact ⟨rfl, abs_neg _, rfl⟩
    · exact ⟨rfl, abs_neg _, rfl⟩
    · exact ⟨rfl, rfl, rfl⟩
  have hexists : (bubbles.any (fun b => projCollides (wallResolved p config).1 p b) = true) ↔
      (∃ b ∈ bubbles,
        Real.sqrt ((((wallResolved p config).1.x - b.position.x) *
            ((wallResolved p config).1.x - b.position.x) +
            ((wallResolved p config).1.y - b.position.y) *
            ((wallResolved p config).1.y - b.position.y) : ℚ) : ℝ) <
          ((p.radius + b.radius - 2 : ℚ) : ℝ)) := by
    rw [List.any_eq_true]
    constructor
    · rintro ⟨b, hb, hcoll⟩
      refine ⟨b, hb, ?_⟩
      rw [← sqrtLt_iff_sqrt_lt _ _
        (add_nonneg (mul_self_nonneg _) (mul_self_nonneg _))]
      exact hcoll
    · rintro ⟨b, hb, hdist⟩
      refine ⟨b, hb, ?_⟩
      rw [projCollides, sqrtLt_iff_sqrt_lt _ _
        (add_nonneg (mul_self_nonneg _) (mul_self_nonneg _))]
      exact hdist
  refine ⟨hwall, ?_, ?_⟩
  · unfold updateProjectile
    dsimp only
    split_ifs with hceil hany
    · exact iff_of_true rfl (Or.inl hceil)
    · exact iff_of_true rfl (Or.inr (hexists.mp hany))
    · apply iff_of_false
      · simp
      · rintro (h | h)
        · exact hceil h
        · exact hany (hexists.mpr h)
  · intro h
    obtain ⟨h1, h2⟩ := not_or.mp h
    unfold updateProjectile
    dsimp only
    rw [if_neg h1, if_neg (fun hany => h2 (hexists.mp hany))]

/-- C2 witness: a concrete projectile heading up-left from mid-canvas with no
bubbles present moves freely (no collision), with unchanged vertical velocity. -/
theorem updateProjectile_grid_mode_witness :
    updateProjectile
        { position := { x := 250, y := 400 }, velocity := { x := -3, y := -10 },
          color := BubbleColor.red, radius := 22 } GAME_CONFIG [] =
      (some { position := { x := 247, y := 390 }, velocity := { x := -3, y := -10 },
              color := BubbleColor.red, radius := 22 }, none) := by
  have h := (updateProjectile_grid_mode
    { position := { x := 250, y := 400 }, velocity := { x := -3, y := -10 },
      color := BubbleColor.red, radius := 22 } GAME_CONFIG []).2.2
  have hwr : wallResolved
      { position := { x := 250, y := 400 }, velocity := { x := -3, y := -10 },
        color := BubbleColor.red, radius := 22 } GAME_CONFIG =
      ({ x := 247, y := 390 }, { x := -3, y := -10 }) := by
    unfold wallResolved integratedPosition
    norm_num [GAME_CONFIG]
  rw [hwr] at h
  exact h (by norm_num)

/-! ## Hex adjacency and flood fill (`grid.ts`)

The source's two traversals (`findMatches`, `findFloatingBubbles`) are the
same worklist loop over string-keyed cells; we embed the cell `(row, col)`
directly as `ℤ × ℤ` (the source key `` `${row},${col}` `` is injective on
integer pairs).  The JS loop pops from the end of the array; the embedding
pops from the head, which changes only the traversal order — the resulting
visited set is proved below to be exactly the reachable set, which is
order-independent.  The loop is given explicit fuel (the source loop always
terminates; `floodFuel` is proved sufficient). -/

/-- A grid address `(row, col)`. -/
abbrev Cell : Type := ℤ × ℤ

/-- `getNeighbors` (source: `grid.ts:108-130`): the six hex neighbors,
offset pattern depending on the row's parity. -/
def getNeighbors (c : Cell) : List Cell :=
  if isOffsetRow c.1 then
    [(c.1 - 1, c.2), (c.1 - 1, c.2 + 1), (c.1, c.2 - 1), (c.1, c.2 + 1),
     (c.1 + 1, c.2), (c.1 + 1, c.2 + 1)]
  else
    [(c.1 - 1, c.2 - 1), (c.1 - 1, c.2), (c.1, c.2 - 1), (c.1, c.2 + 1),
     (c.1 + 1, c.2 - 1), (c.1 + 1, c.2)]

theorem getNeighbors_length (c : Cell) : (getNeighbors c).length = 6 := by
  unfold getNeighbors
  split <;> rfl

/-- The shared worklist loop of `findMatches` (`grid.ts:84-103`) and
`findFloatingBubbles` (`grid.ts:154-170`).  `grid` is the set of cells the
traversal may enter (same-color occupied cells for `findMatches`, all
occupied cells for `findFloatingBubbles`).  A popped cell already visited,
or not in `grid`, is skipped; otherwise it is marked visited and its
not-yet-visited neighbors are pushed (`findFloatingBubbles` additionally
pre-filters pushed neighbors to occupied cells: `pushGridOnly`). -/
def floodLoop (grid : List Cell) (pushGridOnly : Bool) :
    ℕ → List Cell → List Cell → List Cell
  | 0, visited, _ => visited
  | _ + 1, visited, [] => visited
  | fuel + 1, visited, c :: rest =>
    if c ∈ visited then
      floodLoop grid pushGridOnly fuel visited rest
    else if c ∈ grid then
      floodLoop grid pushGridOnly fuel (c :: visited)
        (((getNeighbors c).filter fun n =>
            decide (n ∉ c :: visited) && (!pushGridOnly || decide (n ∈ grid))) ++ rest)
    else
      floodLoop grid pushGridOnly fuel visited rest

/-- Fuel that is always sufficient for `floodLoop` (proved in
`floodLoop_spec`): each visit of a fresh grid cell pushes at most 6
neighbors, so the loop runs at most `stack + 7·|grid|` iterations. -/
def floodFuel (grid stack : List Cell) : ℕ := stack.length + 7 * grid.length + 1

/-- One hex-adjacency step landing on a cell of `grid`. -/
def AdjIn (grid : List Cell) (a b : Cell) : Prop :=
  b ∈ getNeighbors a ∧ b ∈ grid

/-- Reachability through hex-adjacent cells of `grid`. -/
def ReachIn (grid : List Cell) (a b : Cell) : Prop :=
  Relation.ReflTransGen (AdjIn grid) a b

theorem ReachIn.mem_of_start {grid : List Cell} {a b : Cell}
    (h : ReachIn grid a b) (ha : a ∈ grid) : b ∈ grid := by
  induction h with
  | refl => exact ha
  | tail _ hstep _ => exact hstep.2

/-- The visited set only grows. -/
theorem floodLoop_mono (grid : List Cell) (pushGridOnly : Bool) :
    ∀ (fuel : ℕ) (visited stack : List Cell) (x : Cell), x ∈ visited →
      x ∈ floodLoop grid pushGridOnly fuel visited stack := by
  intro fuel
  induction fuel with
  | zero => intro visited stack x hx; simpa [floodLoop] using hx
  | succ n ih =>
    intro visited stack x hx
    cases stack with
    | nil => simpa [floodLoop] using hx
    | cons c rest =>
      by_cases hv : c ∈ visited
      · rw [floodLoop, if_pos hv]; exact ih _ _ _ hx
      · by_cases hg : c ∈ grid
        · rw [floodLoop, if_neg hv, if_pos hg]
          exact ih _ _ _ (List.mem_cons_of_mem _ hx)
        · rw [floodLoop, if_neg hv, if_neg hg]; exact ih _ _ _ hx

/-- Soundness: every cell the loop marks visited was already visited or is
reachable (within `grid`) from some grid cell on the stack. -/
theorem floodLoop_sound (grid : List Cell) (pushGridOnly : Bool) :
    ∀ (fuel : ℕ) (visited stack : List Cell) (x : Cell),
      x ∈ floodLoop grid pushGridOnly fuel visited stack →
      x ∈ visited ∨ ∃ s ∈ stack, s ∈ grid ∧ ReachIn grid s x := by
  intro fuel
  induction fuel with
  | zero =>
    intro visited stack x hx
    exact Or.inl (by simpa [floodLoop] using hx)
  | succ n ih =>
    intro visited stack x hx
    cases stack with
    | nil => exact Or.inl (by simpa [floodLoop] using hx)
    | cons c rest =>
      by_cases hv : c ∈ visited
      · rw [floodLoop, if_pos hv] at hx
        rcases ih _ _ _ hx with h | ⟨s, hs, hsg, hr⟩
        · exact Or.inl h
        · exact Or.inr ⟨s, List.mem_cons_of_mem _ hs, hsg, hr⟩
      · by_cases hg : c ∈ grid
        · rw [floodLoop, if_neg hv, if_pos hg] at hx
          rcases ih _ _ _ hx with h | ⟨s, hs, hsg, hr⟩
          · rcases List.mem_cons.mp h with rfl | h
            · exact Or.inr ⟨x, List.mem_cons_self _ _, hg, Relation.ReflTransGen.refl⟩
            · exact Or.inl h
          · rcases List.mem_append.mp hs with hpush | hrest
            · have hnb : s ∈ getNeighbors c := List.mem_of_mem_filter hpush
              exact Or.inr ⟨c, List.mem_cons_self _ _, hg,
                Relation.ReflTransGen.head ⟨hnb, hsg⟩ hr⟩
            · exact Or.inr ⟨s, List.mem_cons_of_mem _ hrest, hsg, hr⟩
        · rw [floodLoop, if_neg hv, if_neg hg] at hx
          rcases ih _ _ _ hx with h | ⟨s, hs, hsg, hr⟩
          · exact Or.inl h
          · exact Or.inr ⟨s, List.mem_cons_of_mem _ hs, hsg, hr⟩

/-- Number of distinct grid cells not yet visited (termination measure). -/
def unvisitedCount (grid visited : List Cell) : ℕ :=
  (grid.toFinset \ visited.toFinset).card

theorem unvisitedCount_cons {grid visited : List Cell} {c : Cell}
    (hg : c ∈ grid) (hv : c ∉ visited) :
    unvisitedCount grid (c :: visited) + 1 = unvisitedCount grid visited := by
  unfold unvisitedCount
  rw [List.toFinset_cons, Finset.sdiff_insert, Finset.card_erase_add_one]
  exact Finset.mem_sdiff.mpr
    ⟨List.mem_toFinset.mpr hg, fun h => hv (List.mem_toFinset.mp h)⟩

/-- Completeness and closure of the worklist loop, given sufficient fuel and
the invariant that every grid-neighbor of a visited cell is visited or on
the stack: (a) every grid cell on the stack ends up visited; (b) the final
visited set is closed under grid-adjacency. -/
theorem floodLoop_spec (grid : List Cell) (pushGridOnly : Bool) :
    ∀ (fuel : ℕ) (visited stack : List Cell),
      7 * unvisitedCount grid visited + stack.length < fuel →
      (∀ v ∈ visited, ∀ n ∈ getNeighbors v, n ∈ grid → n ∈ visited ∨ n ∈ stack) →
      (∀ x ∈ stack, x ∈ grid → x ∈ floodLoop grid pushGridOnly fuel visited stack) ∧
      (∀ x ∈ floodLoop grid pushGridOnly fuel visited stack,
        ∀ n ∈ getNeighbors x, n ∈ grid →
          n ∈ floodLoop grid pushGridOnly fuel visited stack) := by
  intro fuel
  induction fuel with
  | zero => intro visited stack hb _; exact absurd hb (by omega)
  | succ m ih =>
    intro visited stack hb hinv
    cases stack with
    | nil =>
      refine ⟨fun x hx => absurd hx (List.not_mem_nil x), ?_⟩
      intro x hx n hn hng
      rw [floodLoop] at hx ⊢
      rcases hinv x hx n hn hng with h | h
      · exact h
      · exact absurd h (List.not_mem_nil n)
    | cons c rest =>
      by_cases hv : c ∈ visited
      · have hinv' : ∀ v ∈ visited, ∀ n ∈ getNeighbors v, n ∈ grid →
            n ∈ visited ∨ n ∈ rest := by
          intro v hvv n hn hng
          rcases hinv v hvv n hn hng with h | h
          · exact Or.inl h
          · rcases List.mem_cons.mp h with rfl | h
            · exact Or.inl hv
            · exact Or.inr h
        have hb' : 7 * unvisitedCount grid visited + rest.length < m := by
          simp only [List.length_cons] at hb
          omega
        obtain ⟨ha, hc⟩ := ih visited rest hb' hinv'
        rw [floodLoop, if_pos hv]
        refine ⟨?_, hc⟩
        intro x hx hxg
        rcases List.mem_cons.mp hx with rfl | hx
        · exact floodLoop_mono _ _ _ _ _ _ hv
        · exact ha x hx hxg
      · by_cases hg : c ∈ grid
        · have hinv' : ∀ v ∈ c :: visited, ∀ n ∈ getNeighbors v, n ∈ grid →
              n ∈ c :: visited ∨
                n ∈ ((getNeighbors c).filter fun n =>
                  decide (n ∉ c :: visited) && (!pushGridOnly || decide (n ∈ grid))) ++ rest := by
            intro v hvv n hn hng
            rcases List.mem_cons.mp hvv with rfl | hvv
            · by_cases hnv : n ∈ v :: visited
              · exact Or.inl hnv
              · refine Or.inr (List.mem_append.mpr (Or.inl ?_))
                refine List.mem_filter.mpr ⟨hn, ?_⟩
                simp only [Bool.and_eq_true, Bool.or_eq_true, decide_eq_true_eq]
                exact ⟨hnv, by cases pushGridOnly <;> simp [hng]⟩
            · rcases hinv v hvv n hn hng with h | h
              · exact Or.inl (List.mem_cons_of_mem _ h)
              · rcases List.mem_cons.mp h with rfl | h
                · exact Or.inl (List.mem_cons_self _ _)
                · exact Or.inr (List.mem_append.mpr (Or.inr h))
          have hcount := unvisitedCount_cons hg hv
          have hlen : (((getNeighbors c).filter fun n =>
              decide (n ∉ c :: visited) && (!pushGridOnly || decide (n ∈ grid))) ++
                rest).length ≤ 6 + rest.length := by
            rw [List.length_append]
            have := List.length_filter_le (fun n =>
              decide (n ∉ c :: visited) && (!pushGridOnly || decide (n ∈ grid)))
              (getNeighbors c)
            rw [getNeighbors_length] at this
            omega
          have hb' : 7 * unvisitedCount grid (c :: visited) +
              (((getNeighbors c).filter fun n =>
                decide (n ∉ c :: visited) && (!pushGridOnly || decide (n ∈ grid))) ++
                  rest).length < m := by
            simp only [List.length_cons] at hb
            omega
          obtain ⟨ha, hc⟩ := ih (c :: visited) _ hb' hinv'
          rw [floodLoop, if_neg hv, if_pos hg]
          refine ⟨?_, hc⟩
          intro x hx hxg
          rcases List.mem_cons.mp hx with rfl | hx
          · exact floodLoop_mono _ _ _ _ _ _ (List.mem_cons_self _ _)
          · exact ha x (List.mem_append.mpr (Or.inr hx)) hxg
        · have hinv' : ∀ v ∈ visited, ∀ n ∈ getNeighbors v, n ∈ grid →
              n ∈ visited ∨ n ∈ rest := by
            intro v hvv n hn hng
            rcases hinv v hvv n hn hng with h | h
            · exact Or.inl h
            · rcases List.mem_cons.mp h with rfl | h
              · exact absurd hng hg
              · exact Or.inr h
          have hb' : 7 * unvisitedCount grid visited + rest.length < m := by
            simp only [List.length_cons] at hb
            omega
          obtain ⟨ha, hc⟩ := ih visited rest hb' hinv'
          rw [floodLoop, if_neg hv, if_neg hg]
          refine ⟨?_, hc⟩
          intro x hx hxg
          rcases List.mem_cons.mp hx with rfl | hx
          · exact absurd hxg hg
          · exact ha x hx hxg

/-- Characterization of the flood fill started on an empty visited set with
the standard fuel: a cell is marked connected iff it is reachable within
`grid` from some grid cell of the initial stack. -/
theorem floodLoop_mem_iff (grid : List Cell) (pushGridOnly : Bool)
    (stack : List Cell) (x : Cell) :
    x ∈ floodLoop grid pushGridOnly (floodFuel grid stack) [] stack ↔
      ∃ s ∈ stack, s ∈ grid ∧ ReachIn grid s x := by
  constructor
  · intro hx
    rcases floodLoop_sound _ _ _ _ _ _ hx with h | h
    · exact absurd h (List.not_mem_nil x)
    · exact h
  · rintro ⟨s, hs, hsg, hr⟩
    have hcount : unvisitedCount grid [] ≤ grid.length := by
      unfold unvisitedCount
      rw [List.toFinset_nil, Finset.sdiff_empty]
      exact grid.toFinset_card_le
    have hb : 7 * unvisitedCount grid [] + stack.length < floodFuel grid stack := by
      unfold floodFuel
      omega
    obtain ⟨ha, hc⟩ := floodLoop_spec grid pushGridOnly (floodFuel grid stack) [] stack hb
      (fun v hv => absurd hv (List.not_mem_nil v))
    have hsr := ha s hs hsg
    unfold ReachIn at hr
    induction hr with
    | refl => exact hsr
    | tail _ hstep ihr => exact hc _ ihr _ hstep.1 hstep.2

/-! ## Grid operations (`grid.ts`) -/

/-- The grid address of a bubble (the source's string key `` `${row},${col}` ``,
injective on integer pairs). -/
def Bubble.cell (b : Bubble) : Cell := (b.row, b.col)

/-- `createBubble` (source: `grid.ts:15-30`).  The source draws a fresh id
`bubble-N` from a global counter; the caller passes the counter value. -/
def createBubble (id : ℕ) (row col : ℤ) (color : BubbleColor)
    (config : GameConfig) : Bubble :=
  { id := id
    color := color
    position := gridToPosition row col config
    row := row
    col := col
    radius := config.bubbleRadius }

/-- `addBubbleToGrid` (source: `grid.ts:53-68`): no-op if some bubble already
occupies `(row, col)`, else append a freshly created bubble. -/
def addBubbleToGrid (bubbles : List Bubble) (row col : ℤ) (color : BubbleColor)
    (config : GameConfig) (freshId : ℕ) : List Bubble :=
  if bubbles.any fun b => decide (b.row = row) && decide (b.col = col) then
    bubbles
  else
    bubbles ++ [createBubble freshId row col color config]

/-- `findMatches` (source: `grid.ts:70-106`): flood fill from the seed cell
over occupied same-color cells; returns the bubbles of the visited cells.
(The source materializes the visited key set through its cell→bubble map;
under the one-bubble-per-cell grid invariant that is the same collection of
bubbles as this filter.) -/
def findMatches (bubbles : List Bubble) (startRow startCol : ℤ)
    (color : BubbleColor) : List Bubble :=
  let grid := (bubbles.filter fun b => decide (b.color = color)).map Bubble.cell
  let visited := floodLoop grid false (floodFuel grid [(startRow, startCol)])
    [] [(startRow, startCol)]
  bubbles.filter fun b => decide (b.cell ∈ visited)

/-- `removeMatches` (source: `grid.ts:132-135`): drop the bubbles whose id
occurs among the ids of `matches`. -/
def removeMatches (bubbles ms : List Bubble) : List Bubble :=
  bubbles.filter fun b => decide (b.id ∉ ms.map Bubble.id)

/-- `findFloatingBubbles` (source: `grid.ts:137-174`): flood fill over all
occupied cells starting from every row-0 bubble; returns the bubbles whose
cell was not reached. -/
def findFloatingBubbles (bubbles : List Bubble) : List Bubble :=
  let grid := bubbles.map Bubble.cell
  let start := (bubbles.filter fun b => decide (b.row = 0)).map Bubble.cell
  let connected := floodLoop grid true (floodFuel grid start) [] start
  bubbles.filter fun b => decide (b.cell ∉ connected)

/-- A cell is connected to the top: some row-0 bubble's cell reaches it
through hex-adjacent occupied cells. -/
def ConnectedToTop (bubbles : List Bubble) (c : Cell) : Prop :=
  ∃ b0 ∈ bubbles, b0.row = 0 ∧ ReachIn (bubbles.map Bubble.cell) b0.cell c

/-- Membership characterization of `findFloatingBubbles`: exactly the
bubbles not connected to the top row. -/
theorem findFloatingBubbles_mem (bubbles : List Bubble) (b : Bubble) :
    b ∈ findFloatingBubbles bubbles ↔
      b ∈ bubbles ∧ ¬ ConnectedToTop bubbles b.cell := by
  unfold findFloatingBubbles
  rw [List.mem_filter]
  simp only [decide_eq_true_eq]
  constructor
  · rintro ⟨hb, hnc⟩
    refine ⟨hb, fun hct => hnc ?_⟩
    rw [floodLoop_mem_iff]
    obtain ⟨b0, hb0, hrow, hr⟩ := hct
    refine ⟨b0.cell, ?_, List.mem_map_of_mem _ hb0, hr⟩
    exact List.mem_map_of_mem _ (List.mem_filter.mpr ⟨hb0, by simp [hrow]⟩)
  · rintro ⟨hb, hnc⟩
    refine ⟨hb, fun hmem => hnc ?_⟩
    rw [floodLoop_mem_iff] at hmem
    obtain ⟨s, hs, _, hr⟩ := hmem
    obtain ⟨b0, hb0f, rfl⟩ := List.mem_map.mp hs
    obtain ⟨hb0, hrow⟩ := List.mem_filter.mp hb0f
    exact ⟨b0, hb0, by simpa using hrow, hr⟩

/-- C10: if no bubble sits in row 0, the whole grid is classified floating:
`findFloatingBubbles` returns every bubble. -/
theorem findFloatingBubbles_no_top_row (bubbles : List Bubble)
    (h : ∀ b ∈ bubbles, b.row ≠ 0) :
    findFloatingBubbles bubbles = bubbles := by
  unfold findFloatingBubbles
  have hstart : (bubbles.filter fun b => decide (b.row = 0)) = [] := by
    rw [List.filter_eq_nil_iff]
    intro b hb
    simp [h b hb]
  rw [hstart]
  simp only [List.map_nil]
  have hloop : ∀ fuel, floodLoop (bubbles.map Bubble.cell) true fuel [] [] = [] := by
    intro fuel
    cases fuel <;> rfl
  simp only [hloop]
  rw [List.filter_eq_self]
  intro b _
  simp

/-- C10 witness: a single bubble at (1, 0) — no row-0 bubble — is returned
in full by `findFloatingBubbles`. -/
theorem findFloatingBubbles_no_top_row_witness :
    findFloatingBubbles
        [{ id := 0, color := BubbleColor.red, position := { x := 0, y := 0 },
           row := 1, col := 0, radius := 22 }] =
      [{ id := 0, color := BubbleColor.red, position := { x := 0, y := 0 },
         row := 1, col := 0, radius := 22 }] :=
  findFloatingBubbles_no_top_row _ (by decide)

/-- C4: connectivity invariant of the floating-bubble cleanup. After removing
`findFloatingBubbles bubbles` from the grid (through the code's removal
operation `removeMatches`), every remaining bubble lies in row 0 or is
connected to a remaining row-0 bubble through hex-adjacent cells that are
all occupied by remaining bubbles.  Bubble ids are assumed pairwise distinct
(they are generated by a global counter in the source). -/
theorem floating_cleanup_connectivity (bubbles : List Bubble)
    (hids : (bubbles.map Bubble.id).Nodup) :
    ∀ b ∈ removeMatches bubbles (findFloatingBubbles bubbles),
      b.row = 0 ∨
        ∃ b0 ∈ removeMatches bubbles (findFloatingBubbles bubbles),
          b0.row = 0 ∧
            ReachIn ((removeMatches bubbles (findFloatingBubbles bubbles)).map
              Bubble.cell) b0.cell b.cell := by
  intro b hb
  right
  -- Membership in the cleaned grid is membership in `bubbles` minus floating.
  have hmem_clean : ∀ x, x ∈ removeMatches bubbles (findFloatingBubbles bubbles) ↔
      x ∈ bubbles ∧ x ∉ findFloatingBubbles bubbles := by
    intro x
    unfold removeMatches
    rw [List.mem_filter]
    simp only [decide_eq_true_eq]
    constructor
    · rintro ⟨hx, hnid⟩
      exact ⟨hx, fun hxf => hnid (List.mem_map_of_mem _ hxf)⟩
    · rintro ⟨hx, hnf⟩
      refine ⟨hx, fun hid => hnf ?_⟩
      obtain ⟨y, hy, hyid⟩ := List.mem_map.mp hid
      have hyb : y ∈ bubbles := ((findFloatingBubbles_mem bubbles y).mp hy).1
      have : x = y := List.inj_on_of_nodup_map hids hx hyb hyid.symm
      exact this ▸ hy
  obtain ⟨hbb, hbnf⟩ := (hmem_clean b).mp hb
  have hct : ConnectedToTop bubbles b.cell := by
    by_contra hnc
    exact hbnf ((findFloatingBubbles_mem bubbles b).mpr ⟨hbb, hnc⟩)
  obtain ⟨b0, hb0, hrow, hr⟩ := hct
  -- b0 is itself connected (reaches itself), hence remains.
  have hconn_of_reach : ∀ x : Cell, ReachIn (bubbles.map Bubble.cell) b0.cell x →
      ConnectedToTop bubbles x := fun x hx => ⟨b0, hb0, hrow, hx⟩
  have hkeep : ∀ y ∈ bubbles, ConnectedToTop bubbles y.cell →
      y ∈ removeMatches bubbles (findFloatingBubbles bubbles) := by
    intro y hy hyc
    exact (hmem_clean y).mpr
      ⟨hy, fun hyf => ((findFloatingBubbles_mem bubbles y).mp hyf).2 hyc⟩
  refine ⟨b0, hkeep b0 hb0 ⟨b0, hb0, hrow, Relation.ReflTransGen.refl⟩, hrow, ?_⟩
  -- Transport the path into the cleaned grid: every cell along it is
  -- connected to the top, so its bubble survives the cleanup.
  have htrans : ∀ x : Cell,
      Relation.ReflTransGen (AdjIn (bubbles.map Bubble.cell)) b0.cell x →
      Relation.ReflTransGen
        (AdjIn ((removeMatches bubbles (findFloatingBubbles bubbles)).map
          Bubble.cell)) b0.cell x := by
    intro x hx
    induction hx with
    | refl => exact Relation.ReflTransGen.refl
    | tail hpath hstep ihr =>
      rename_i mid last
      refine Relation.ReflTransGen.tail ihr ⟨hstep.1, ?_⟩
      obtain ⟨y, hy, hycell⟩ := List.mem_map.mp hstep.2
      have hyconn : ConnectedToTop bubbles y.cell := by
        rw [hycell]
        exact ⟨b0, hb0, hrow, Relation.ReflTransGen.tail hpath hstep⟩
      exact hycell ▸ List.mem_map_of_mem _ (hkeep y hy hyconn)
  exact htrans b.cell hr

/-- Membership in `removeMatches`, assuming pairwise-distinct ids (the
source generates ids from a global counter) and `ms ⊆ bubbles`. -/
theorem removeMatches_mem {bubbles ms : List Bubble}
    (hids : (bubbles.map Bubble.id).Nodup)
    (hsub : ∀ x ∈ ms, x ∈ bubbles) (x : Bubble) :
    x ∈ removeMatches bubbles ms ↔ x ∈ bubbles ∧ x ∉ ms := by
  unfold removeMatches
  rw [List.mem_filter]
  simp only [decide_eq_true_eq]
  constructor
  · rintro ⟨hx, hnid⟩
    exact ⟨hx, fun hxm => hnid (List.mem_map_of_mem _ hxm)⟩
  · rintro ⟨hx, hnm⟩
    refine ⟨hx, fun hid => hnm ?_⟩
    obtain ⟨y, hy, hyid⟩ := List.mem_map.mp hid
    have hxy : x = y := List.inj_on_of_nodup_map hids hx (hsub y hy) hyid.symm
    exact hxy ▸ hy

theorem removeMatches_ids_nodup {bubbles : List Bubble} (ms : List Bubble)
    (hids : (bubbles.map Bubble.id).Nodup) :
    ((removeMatches bubbles ms).map Bubble.id).Nodup :=
  hids.sublist (List.Sublist.map _ (List.filter_sublist _))

theorem findMatches_subset (bubbles : List Bubble) (r c : ℤ) (color : BubbleColor) :
    ∀ x ∈ findMatches bubbles r c color, x ∈ bubbles := by
  intro x hx
  unfold findMatches at hx
  exact (List.mem_filter.mp hx).1

/-! ## Shot resolution and scoring

`useGameEngine.updateGame` (collision branch) and
`GrabDemo.handleProjectileCollision` resolve a landed projectile: insert,
flood-fill matches, remove if the component has ≥ 3 bubbles, then remove
floating bubbles; score `10` per matched bubble plus `20` per floating
bubble. -/

/-- The collision-resolution fragment of `useGameEngine.updateGame`
(source: `useGameEngine.ts`, collision branch): insert through
`addBubbleToGrid`, find matches from the landing cell, and if the component
has at least 3 bubbles remove it, then remove floating bubbles, accumulating
`matches.length * 10 + floating.length * 20` score. Returns the new bubble
list and new score. -/
def resolveShot (config : GameConfig) (freshId : ℕ) (bubbles : List Bubble)
    (row col : ℤ) (color : BubbleColor) (score : ℤ) : List Bubble × ℤ :=
  let newBubbles := addBubbleToGrid bubbles row col color config freshId
  let ms := findMatches newBubbles row col color
  if 3 ≤ ms.length then
    let afterMatches := removeMatches newBubbles ms
    let floating := findFloatingBubbles afterMatches
    let final := if 0 < floating.length then removeMatches afterMatches floating
                 else afterMatches
    (final, score + (ms.length : ℤ) * 10 +
      (if 0 < floating.length then (floating.length : ℤ) * 20 else 0))
  else
    (newBubbles, score)

/-- The grid/score mutation of `GrabDemo.handleProjectileCollision`
(source: `GrabDemo.tsx:323-352`): unlike `resolveShot`, the new bubble is
appended **unconditionally** (no occupied-cell check). -/
def handleProjectileCollision (config : GameConfig) (freshId : ℕ)
    (bubbles : List Bubble) (gridPos : Cell) (color : BubbleColor)
    (score : ℤ) : List Bubble × ℤ :=
  let newBubble := createBubble freshId gridPos.1 gridPos.2 color config
  let bubbles1 := bubbles ++ [newBubble]
  let ms := findMatches bubbles1 gridPos.1 gridPos.2 color
  if 3 ≤ ms.length then
    let b2 := removeMatches bubbles1 ms
    let floating := findFloatingBubbles b2
    let b3 := if 0 < floating.length then removeMatches b2 floating else b2
    (b3, score + (ms.length : ℤ) * 10 +
      (if 0 < floating.length then (floating.length : ℤ) * 20 else 0))
  else
    (bubbles1, score)

/-- C3: placing an in-flight projectile of color `color` at the free cell
`(row, col)`.  With `ms` the same-color component returned by `findMatches`
at the seed and `floating` the floating bubbles of the grid after match
removal: if `|ms| ≥ 3` the score grows by `10·|ms| + 20·|floating|`,
`floating` is exactly the set of bubbles left disconnected from row 0, and
the resulting grid keeps exactly the bubbles that are neither matched nor
floating; if `|ms| < 3` nothing is removed and the score is unchanged.
Ids are pairwise distinct and the landing cell is free (the source
guarantees both: ids come from a global counter, and the projectile lands
by colliding with a grid that does not contain its landing cell). -/
theorem shot_resolution (config : GameConfig) (freshId : ℕ) (bubbles : List Bubble)
    (row col : ℤ) (color : BubbleColor) (score : ℤ)
    (newBubbles ms afterMatches floating : List Bubble)
    (hids : (bubbles.map Bubble.id).Nodup)
    (hfresh : ∀ b ∈ bubbles, b.id ≠ freshId)
    (hunocc : ∀ b ∈ bubbles, ¬(b.row = row ∧ b.col = col))
    (hNB : newBubbles = addBubbleToGrid bubbles row col color config freshId)
    (hM : ms = findMatches newBubbles row col color)
    (hAM : afterMatches = removeMatches newBubbles ms)
    (hF : floating = findFloatingBubbles afterMatches) :
    (3 ≤ ms.length →
      (resolveShot config freshId bubbles row col color score).2 =
          score + (ms.length : ℤ) * 10 + (floating.length : ℤ) * 20 ∧
        (∀ x, x ∈ floating ↔
          x ∈ afterMatches ∧ ¬ ConnectedToTop afterMatches x.cell) ∧
        (∀ x, x ∈ (resolveShot config freshId bubbles row col color score).1 ↔
          x ∈ newBubbles ∧ x ∉ ms ∧ x ∉ floating)) ∧
    (ms.length < 3 →
      resolveShot config freshId bubbles row col color score = (newBubbles, score)) := by
  subst hF hAM hM hNB
  have hany : ¬ ((bubbles.any fun b =>
      decide (b.row = row) && decide (b.col = col)) = true) := by
    rw [List.any_eq_true]
    rintro ⟨b, hb, hcond⟩
    simp only [Bool.and_eq_true, decide_eq_true_eq] at hcond
    exact hunocc b hb hcond
  have hNBeq : addBubbleToGrid bubbles row col color config freshId =
      bubbles ++ [createBubble freshId row col color config] := by
    unfold addBubbleToGrid
    rw [if_neg hany]
  have hNBids : ((addBubbleToGrid bubbles row col color config freshId).map
      Bubble.id).Nodup := by
    rw [hNBeq, List.map_append, List.nodup_append]
    refine ⟨hids, by simp, ?_⟩
    intro a ha hb
    simp only [List.map_cons, List.map_nil, List.mem_singleton] at hb
    obtain ⟨b, hbmem, hbid⟩ := List.mem_map.mp ha
    exact hfresh b hbmem (by rw [hbid, hb]; rfl)
  have hMsub := findMatches_subset
    (addBubbleToGrid bubbles row col color config freshId) row col color
  have hAMids := removeMatches_ids_nodup
    (findMatches (addBubbleToGrid bubbles row col color config freshId) row col color)
    hNBids
  have hFsub : ∀ y ∈ findFloatingBubbles
      (removeMatches (addBubbleToGrid bubbles row col color config freshId)
        (findMatches (addBubbleToGrid bubbles row col color config freshId)
          row col color)),
      y ∈ removeMatches (addBubbleToGrid bubbles row col color config freshId)
        (findMatches (addBubbleToGrid bubbles row col color config freshId)
          row col color) :=
    fun y hy => ((findFloatingBubbles_mem _ y).mp hy).1
  constructor
  · intro h3
    refine ⟨?_, fun x => findFloatingBubbles_mem _ x, ?_⟩
    · unfold resolveShot
      dsimp only
      rw [if_pos h3]
      dsimp only
      split_ifs with hf
      · rfl
      · have h0 : (findFloatingBubbles
            (removeMatches (addBubbleToGrid bubbles row col color config freshId)
              (findMatches (addBubbleToGrid bubbles row col color config freshId)
                row col color))).length = 0 := by omega
        rw [h0]
        norm_num
    · intro x
      unfold resolveShot
      dsimp only
      rw [if_pos h3]
      dsimp only
      split_ifs with hf
      · rw [removeMatches_mem hAMids hFsub x, removeMatches_mem hNBids hMsub x]
        tauto
      · have h0 : findFloatingBubbles
            (removeMatches (addBubbleToGrid bubbles row col color config freshId)
              (findMatches (addBubbleToGrid bubbles row col color config freshId)
                row col color)) = [] :=
          List.length_eq_zero.mp (by omega)
        rw [removeMatches_mem hNBids hMsub x, h0]
        simp
  · intro hlt
    unfold resolveShot
    dsimp only
    rw [if_neg (by omega)]

/-- A concrete well-formed grid — three red bubbles in row 0 — used by the
C3 witness (`position` is irrelevant to match/score resolution). -/
def redRowGrid : List Bubble :=
  [{ id := 0, color := BubbleColor.red, position := { x := 0, y := 0 },
     row := 0, col := 1, radius := 22 },
   { id := 1, color := BubbleColor.red, position := { x := 0, y := 0 },
     row := 0, col := 2, radius := 22 },
   { id := 2, color := BubbleColor.red, position := { x := 0, y := 0 },
     row := 0, col := 3, radius := 22 }]

/-- C3 witness: shooting a red bubble at the free cell (0,0) next to three
red bubbles yields a 4-bubble component and the corresponding score. -/
theorem shot_resolution_witness :
    (resolveShot GAME_CONFIG 3 redRowGrid 0 0 BubbleColor.red 0).2 =
      0 + ((findMatches (addBubbleToGrid redRowGrid 0 0 BubbleColor.red
          GAME_CONFIG 3) 0 0 BubbleColor.red).length : ℤ) * 10 +
      ((findFloatingBubbles (removeMatches
          (addBubbleToGrid redRowGrid 0 0 BubbleColor.red GAME_CONFIG 3)
          (findMatches (addBubbleToGrid redRowGrid 0 0 BubbleColor.red
            GAME_CONFIG 3) 0 0 BubbleColor.red))).length : ℤ) * 20 :=
  ((shot_resolution GAME_CONFIG 3 redRowGrid 0 0 BubbleColor.red 0 _ _ _ _
    (by decide) (by decide) (by decide) rfl rfl rfl rfl).1 (by decide)).1

/-- C8 (amended): `addBubbleToGrid` silently ignores an insert into an
occupied cell (returns its input unchanged), and consequently preserves the
at-most-one-bubble-per-cell invariant. (The `GrabDemo` collision path does
not go through `addBubbleToGrid` and does not preserve it — see
`occupied_insert_counterexample`.) -/
theorem addBubbleToGrid_occupied_noop (bubbles : List Bubble) (row col : ℤ)
    (color : BubbleColor) (config : GameConfig) (freshId : ℕ) :
    ((∃ b ∈ bubbles, b.row = row ∧ b.col = col) →
      addBubbleToGrid bubbles row col color config freshId = bubbles) ∧
    ((bubbles.map Bubble.cell).Nodup →
      ((addBubbleToGrid bubbles row col color config freshId).map
        Bubble.cell).Nodup) := by
  constructor
  · rintro ⟨b, hb, hr, hc⟩
    unfold addBubbleToGrid
    rw [if_pos (List.any_eq_true.mpr ⟨b, hb, by simp [hr, hc]⟩)]
  · intro hnd
    unfold addBubbleToGrid
    by_cases hany : (bubbles.any fun b =>
        decide (b.row = row) && decide (b.col = col)) = true
    · rw [if_pos hany]
      exact hnd
    · rw [if_neg hany, List.map_append, List.nodup_append]
      refine ⟨hnd, by simp, ?_⟩
      intro a ha hmem
      simp only [List.map_cons, List.map_nil, List.mem_singleton] at hmem
      obtain ⟨b, hbmem, hbcell⟩ := List.mem_map.mp ha
      have h2 : (b.row, b.col) = ((row, col) : Cell) := hbcell.trans hmem
      have hcell : b.row = row ∧ b.col = col := by simpa using h2
      exact hany (List.any_eq_true.mpr ⟨b, hbmem, by simp [hcell.1, hcell.2]⟩)

/-- C8 witness: inserting at the occupied cell (0,0) returns the grid
unchanged. -/
theorem addBubbleToGrid_occupied_noop_witness :
    addBubbleToGrid
        [{ id := 0, color := BubbleColor.red, position := { x := 0, y := 0 },
           row := 0, col := 0, radius := 22 }] 0 0 BubbleColor.blue GAME_CONFIG 1 =
      [{ id := 0, color := BubbleColor.red, position := { x := 0, y := 0 },
         row := 0, col := 0, radius := 22 }] :=
  (addBubbleToGrid_occupied_noop _ 0 0 BubbleColor.blue GAME_CONFIG 1).1
    (by decide)

/-- C8 counterexample: the claim's "every projectile-collision insert path
preserves the at-most-one-bubble-per-cell invariant" is false —
`GrabDemo.handleProjectileCollision` appends without an occupancy check, so
landing a blue projectile on the occupied cell (0,0) leaves two bubbles in
that cell. -/
theorem occupied_insert_counterexample :
    ¬ (((handleProjectileCollision GAME_CONFIG 1
        [{ id := 0, color := BubbleColor.red, position := { x := 0, y := 0 },
           row := 0, col := 0, radius := 22 }]
        (0, 0) BubbleColor.blue 0).1.map Bubble.cell).Nodup) := by decide

/-- C4 witness: in the three-bubble row-0 grid, the first bubble survives
the cleanup and is connected to a remaining row-0 bubble. -/
theorem floating_cleanup_connectivity_witness :
    (redRowGrid.map Bubble.id).Nodup ∧
    ({ id := 0, color := BubbleColor.red, position := { x := 0, y := 0 },
       row := 0, col := 1, radius := 22 } : Bubble) ∈
      removeMatches redRowGrid (findFloatingBubbles redRowGrid) ∧
    (({ id := 0, color := BubbleColor.red, position := { x := 0, y := 0 },
        row := 0, col := 1, radius := 22 } : Bubble).row = 0 ∨
      ∃ b0 ∈ removeMatches redRowGrid (findFloatingBubbles redRowGrid),
        b0.row = 0 ∧
          ReachIn ((removeMatches redRowGrid
              (findFloatingBubbles redRowGrid)).map Bubble.cell) b0.cell
            ({ id := 0, color := BubbleColor.red, position := { x := 0, y := 0 },
               row := 0, col := 1, radius := 22 } : Bubble).cell) :=
  ⟨by decide, by decide,
    floating_cleanup_connectivity redRowGrid (by decide) _ (by decide)⟩

/-! ## Pinch gesture constants and state machine (`GrabDemo.tsx:43-80,421-553`) -/

/-- `CANVAS_WIDTH` (source: `GrabDemo.tsx:43`). -/
def CANVAS_WIDTH : ℚ := 500
/-- `CANVAS_HEIGHT` (source: `GrabDemo.tsx:44`). -/
def CANVAS_HEIGHT : ℚ := 750
/-- `FLOOR_Y = CANVAS_HEIGHT * 0.78` (source: `GrabDemo.tsx:45`). -/
def FLOOR_Y : ℚ := CANVAS_HEIGHT * 0.78
/-- `GRAB_THRESHOLD` — strict threshold to START grabbing
(source: `GrabDemo.tsx:46`). -/
def GRAB_THRESHOLD : ℚ := 0.08
/-- `RELEASE_THRESHOLD` — permissive threshold to RELEASE, hysteresis
(source: `GrabDemo.tsx:47`). -/
def RELEASE_THRESHOLD : ℚ := 0.18
/-- `GRAB_DISTANCE` — pixel radius for grabbing the ball
(source: `GrabDemo.tsx:48`). -/
def GRAB_DISTANCE : ℚ := 80
/-- `RELEASE_FRAMES` — frames without pinch required to release
(source: `GrabDemo.tsx:49`). -/
def RELEASE_FRAMES : ℕ := 3
/-- `POSITION_SMOOTHING` (source: `GrabDemo.tsx:52`). -/
def POSITION_SMOOTHING : ℚ := 0.4
/-- `SLINGSHOT_ANCHOR_X = CANVAS_WIDTH / 2` (source: `GrabDemo.tsx:57`). -/
def SLINGSHOT_ANCHOR_X : ℚ := CANVAS_WIDTH / 2
/-- `SLINGSHOT_ANCHOR_Y = FLOOR_Y - 22` (source: `GrabDemo.tsx:58`). -/
def SLINGSHOT_ANCHOR_Y : ℚ := FLOOR_Y - 22
/-- `SLINGSHOT_RELEASE_THRESHOLD` — "More sensitive release when in
slingshot zone" (source: `GrabDemo.tsx:61`). -/
def SLINGSHOT_RELEASE_THRESHOLD : ℚ := 0.10
/-- `SLINGSHOT_RELEASE_FRAMES` — "Requires 2 consistent frames to release"
(source: `GrabDemo.tsx:62`). -/
def SLINGSHOT_RELEASE_FRAMES : ℕ := 2
/-- `OPENING_VELOCITY_THRESHOLD` (source: `GrabDemo.tsx:63`). -/
def OPENING_VELOCITY_THRESHOLD : ℚ := 0.035
/-- `VELOCITY_HISTORY_SIZE` (source: `GrabDemo.tsx:64`). -/
def VELOCITY_HISTORY_SIZE : ℕ := 3

/-- C6 counterexample: the claimed ordering
`SLINGSHOT_RELEASE_THRESHOLD ≥ RELEASE_THRESHOLD` is false — the slingshot
zone's threshold (0.10) is strictly below the neutral continue threshold
(0.18). -/
theorem threshold_ordering_counterexample :
    SLINGSHOT_RELEASE_THRESHOLD < RELEASE_THRESHOLD := by
  norm_num [SLINGSHOT_RELEASE_THRESHOLD, RELEASE_THRESHOLD]

/-- C6 (amended): the hysteresis band never inverts — both continue/release
thresholds are at least the begin-pinch threshold — but the slingshot-zone
threshold is *tighter* (more sensitive), not looser, than the neutral one:
`GRAB_THRESHOLD ≤ SLINGSHOT_RELEASE_THRESHOLD ≤ RELEASE_THRESHOLD`. -/
theorem threshold_ordering :
    GRAB_THRESHOLD ≤ SLINGSHOT_RELEASE_THRESHOLD ∧
    SLINGSHOT_RELEASE_THRESHOLD ≤ RELEASE_THRESHOLD ∧
    GRAB_THRESHOLD ≤ RELEASE_THRESHOLD := by
  norm_num [GRAB_THRESHOLD, SLINGSHOT_RELEASE_THRESHOLD, RELEASE_THRESHOLD]

/-- Decidable embedding of the source comparison `t < Math.sqrt s` for
`s ≥ 0` (used by `distFromAnchor > 20`): `t < 0 ∨ t * t < s`. -/
def sqrtGt (s t : ℚ) : Bool := decide (t < 0) || decide (t * t < s)

/-- Gesture/grab state carried across frames by `GrabDemo`'s refs
(`ballRef.isGrabbed/position`, `prevPinchDistanceRef`, `velocityHistoryRef`,
`releaseCounterRef`, `wasPinchingRef`). -/
structure GestureState where
  ballPos : Vector2D
  ballGrabbed : Bool
  prevPinchDistance : ℚ
  velocityHistory : List ℚ
  releaseCounter : ℕ
  wasPinching : Bool
  deriving DecidableEq, Repr

/-- One frame of the pinch/grab state machine with a hand present
(source: `GrabDemo.tsx:421-553`): smoothed opening velocity (average of the
last `VELOCITY_HISTORY_SIZE` pinch-distance deltas), slingshot-zone test
(`distFromAnchor > 20` while grabbed), hysteresis thresholds, the
rapid-opening override (`isRapidOpening` forces `isPinching` false), the
release grace counter (release only when it reaches the zone's frame count),
and the grab-on-transition rule.  The returned flag is `true` exactly on
the frame the release fires (source line 476).  The launch-impulse
computation performed at release (source lines 480-524) is embedded
separately (`clampLaunchAngle`); here the ball is snapped back to the
anchor as the source does in both release outcomes. -/
def gestureStep (s : GestureState) (pinchDistance : ℚ) (pinchPosition : Vector2D) :
    GestureState × Bool :=
  let rawVelocity := pinchDistance - s.prevPinchDistance
  let history0 := s.velocityHistory ++ [rawVelocity]
  let history := if VELOCITY_HISTORY_SIZE < history0.length then history0.tail else history0
  let pinchVelocity := history.sum / (history.length : ℚ)
  let dx := s.ballPos.x - SLINGSHOT_ANCHOR_X
  let dy := s.ballPos.y - SLINGSHOT_ANCHOR_Y
  let isInSlingshotZone := s.ballGrabbed && sqrtGt (dx * dx + dy * dy) 20
  let releaseThreshold :=
    if isInSlingshotZone then SLINGSHOT_RELEASE_THRESHOLD else RELEASE_THRESHOLD
  let threshold := if s.ballGrabbed then releaseThreshold else GRAB_THRESHOLD
  let isRapidOpening :=
    isInSlingshotZone && decide (OPENING_VELOCITY_THRESHOLD < pinchVelocity)
  let isPinching := decide (pinchDistance < threshold) && !isRapidOpening
  let requiredReleaseFrames :=
    if isInSlingshotZone then SLINGSHOT_RELEASE_FRAMES else RELEASE_FRAMES
  if s.ballGrabbed then
    if isPinching then
      ({ ballPos := { x := s.ballPos.x + (pinchPosition.x - s.ballPos.x) * POSITION_SMOOTHING,
                      y := s.ballPos.y + (pinchPosition.y - s.ballPos.y) * POSITION_SMOOTHING },
         ballGrabbed := true,
         prevPinchDistance := pinchDistance,
         velocityHistory := history,
         releaseCounter := 0,
         wasPinching := isPinching }, false)
    else
      let counter := s.releaseCounter + 1
      if requiredReleaseFrames ≤ counter then
        ({ ballPos := { x := SLINGSHOT_ANCHOR_X, y := SLINGSHOT_ANCHOR_Y },
           ballGrabbed := false,
           prevPinchDistance := pinchDistance,
           velocityHistory := history,
           releaseCounter := 0,
           wasPinching := isPinching }, true)
      else
        ({ ballPos := { x := s.ballPos.x + (pinchPosition.x - s.ballPos.x) * POSITION_SMOOTHING,
                        y := s.ballPos.y + (pinchPosition.y - s.ballPos.y) * POSITION_SMOOTHING },
           ballGrabbed := true,
           prevPinchDistance := pinchDistance,
           velocityHistory := history,
           releaseCounter := counter,
           wasPinching := isPinching }, false)
  else
    if !s.wasPinching && isPinching &&
        sqrtLt ((pinchPosition.x - s.ballPos.x) * (pinchPosition.x - s.ballPos.x) +
          (pinchPosition.y - s.ballPos.y) * (pinchPosition.y - s.ballPos.y))
          GRAB_DISTANCE then
      ({ ballPos := pinchPosition,
         ballGrabbed := true,
         prevPinchDistance := pinchDistance,
         velocityHistory := history,
         releaseCounter := 0,
         wasPinching := isPinching }, false)
    else
      ({ ballPos := s.ballPos,
         ballGrabbed := s.ballGrabbed,
         prevPinchDistance := pinchDistance,
         velocityHistory := history,
         releaseCounter := 0,
         wasPinching := isPinching }, false)

/-- Ball held 100px above the slingshot anchor (well inside the
active-manipulation zone), previous pinch distance 0.05, clean counters. -/
def heldInZoneState : GestureState :=
  { ballPos := { x := 250, y := 463 }
    ballGrabbed := true
    prevPinchDistance := 0.05
    velocityHistory := []
    releaseCounter := 0
    wasPinching := true }

/-- C5: the code does NOT fire the release at the jump frame.  For the
claimed scenario — ball held in the slingshot zone, pinch distances
[0.05, 0.05, 0.30] — the third frame has smoothed opening velocity
(0.25/3 ≈ 0.083) above `OPENING_VELOCITY_THRESHOLD` and the rapid-opening
override does suppress `isPinching`, but the release counter has only
reached 1 of the required `SLINGSHOT_RELEASE_FRAMES = 2`, so the ball is
still grabbed after the jump frame; the release fires one frame later. -/
theorem rapid_release_not_at_jump_frame :
    (gestureStep ((gestureStep ((gestureStep heldInZoneState 0.05
        { x := 250, y := 463 }).1) 0.05 { x := 250, y := 463 }).1) 0.30
        { x := 250, y := 463 }).2 = false ∧
    (gestureStep ((gestureStep ((gestureStep heldInZoneState 0.05
        { x := 250, y := 463 }).1) 0.05 { x := 250, y := 463 }).1) 0.30
        { x := 250, y := 463 }).1.ballGrabbed = true ∧
    (gestureStep ((gestureStep ((gestureStep ((gestureStep heldInZoneState 0.05
        { x := 250, y := 463 }).1) 0.05 { x := 250, y := 463 }).1) 0.30
        { x := 250, y := 463 }).1) 0.30 { x := 250, y := 463 }).2 = true := by
  have h1 : gestureStep heldInZoneState 0.05 { x := 250, y := 463 } =
      ({ ballPos := { x := 250, y := 463 }, ballGrabbed := true,
         prevPinchDistance := 0.05, velocityHistory := [0], releaseCounter := 0,
         wasPinching := true }, false) := by
    norm_num [gestureStep, heldInZoneState, sqrtGt, SLINGSHOT_ANCHOR_X,
      SLINGSHOT_ANCHOR_Y, FLOOR_Y, CANVAS_WIDTH, CANVAS_HEIGHT,
      VELOCITY_HISTORY_SIZE, OPENING_VELOCITY_THRESHOLD,
      SLINGSHOT_RELEASE_THRESHOLD, POSITION_SMOOTHING]
  rw [h1]
  have h2 : gestureStep
      { ballPos := { x := 250, y := 463 }, ballGrabbed := true,
        prevPinchDistance := 0.05, velocityHistory := [0], releaseCounter := 0,
        wasPinching := true } 0.05 { x := 250, y := 463 } =
      ({ ballPos := { x := 250, y := 463 }, ballGrabbed := true,
         prevPinchDistance := 0.05, velocityHistory := [0, 0], releaseCounter := 0,
         wasPinching := true }, false) := by
    norm_num [gestureStep, sqrtGt, SLINGSHOT_ANCHOR_X,
      SLINGSHOT_ANCHOR_Y, FLOOR_Y, CANVAS_WIDTH, CANVAS_HEIGHT,
      VELOCITY_HISTORY_SIZE, OPENING_VELOCITY_THRESHOLD,
      SLINGSHOT_RELEASE_THRESHOLD, POSITION_SMOOTHING]
  rw [h2]
  have h3 : gestureStep
      { ballPos := { x := 250, y := 463 }, ballGrabbed := true,
        prevPinchDistance := 0.05, velocityHistory := [0, 0], releaseCounter := 0,
        wasPinching := true } 0.30 { x := 250, y := 463 } =
      ({ ballPos := { x := 250, y := 463 }, ballGrabbed := true,
         prevPinchDistance := 0.30, velocityHistory := [0, 0, 0.25],
         releaseCounter := 1, wasPinching := false }, false) := by
    norm_num [gestureStep, sqrtGt, SLINGSHOT_ANCHOR_X,
      SLINGSHOT_ANCHOR_Y, FLOOR_Y, CANVAS_WIDTH, CANVAS_HEIGHT,
      VELOCITY_HISTORY_SIZE, OPENING_VELOCITY_THRESHOLD,
      SLINGSHOT_RELEASE_THRESHOLD, SLINGSHOT_RELEASE_FRAMES, POSITION_SMOOTHING]
  rw [h3]
  have h4 : gestureStep
      { ballPos := { x := 250, y := 463 }, ballGrabbed := true,
        prevPinchDistance := 0.30, velocityHistory := [0, 0, 0.25],
        releaseCounter := 1, wasPinching := false } 0.30 { x := 250, y := 463 } =
      ({ ballPos := { x := SLINGSHOT_ANCHOR_X, y := SLINGSHOT_ANCHOR_Y },
         ballGrabbed := false, prevPinchDistance := 0.30,
         velocityHistory := [0, 0.25, 0], releaseCounter := 0,
         wasPinching := false }, true) := by
    norm_num [gestureStep, sqrtGt, SLINGSHOT_ANCHOR_X,
      SLINGSHOT_ANCHOR_Y, FLOOR_Y, CANVAS_WIDTH, CANVAS_HEIGHT,
      VELOCITY_HISTORY_SIZE, OPENING_VELOCITY_THRESHOLD,
      SLINGSHOT_RELEASE_THRESHOLD, SLINGSHOT_RELEASE_FRAMES, POSITION_SMOOTHING]
  rw [h4]
  exact ⟨rfl, rfl, rfl⟩

/-! ## One Euro Filter (`GrabDemo.tsx:167-224`)

The filter's adaptive-smoothing branch uses `2 * Math.PI`, so this component
is embedded over `ℝ`. -/

/-- Filter parameters and mutable state (source: the private fields of
class `OneEuroFilter`). -/
structure OneEuroFilterState where
  minCutoff : ℝ
  beta : ℝ
  dCutoff : ℝ
  xPrev : Option ℝ
  dxPrev : ℝ
  tPrev : Option ℝ

/-- `smoothingFactor` (source: `GrabDemo.tsx:181-184`). -/
noncomputable def smoothingFactor (te cutoff : ℝ) : ℝ :=
  let tau := 1 / (2 * Real.pi * cutoff)
  1 / (1 + tau / te)

/-- `exponentialSmoothing` (source: `GrabDemo.tsx:186-188`). -/
def exponentialSmoothing (a x xPrev : ℝ) : ℝ := a * x + (1 - a) * xPrev

/-- `OneEuroFilter.filter` (source: `GrabDemo.tsx:190-217`), as a pure
function from state and sample to (returned value, new state). -/
noncomputable def OneEuroFilter.filter (s : OneEuroFilterState) (x t : ℝ) :
    ℝ × OneEuroFilterState :=
  match s.xPrev, s.tPrev with
  | some xPrev, some tPrev =>
    let te := t - tPrev
    if te ≤ 0 then (xPrev, s)
    else
      let aD := smoothingFactor te s.dCutoff
      let dx := (x - xPrev) / te
      let dxSmoothed := exponentialSmoothing aD dx s.dxPrev
      let cutoff := s.minCutoff + s.beta * |dxSmoothed|
      let a := smoothingFactor te cutoff
      let xFiltered := exponentialSmoothing a x xPrev
      (xFiltered,
       { s with xPrev := some xFiltered, dxPrev := dxSmoothed, tPrev := some t })
  | _, _ =>
    (x, { s with xPrev := some x, tPrev := some t })

/-- C9: the filter's guards.  (1) A first call (no seeded state) returns the
sample `x` unchanged and seeds the previous value and timestamp with
`(x, t)`; (2) a later call with non-positive elapsed time `t - tPrev`
returns the last filtered value and leaves the whole state unchanged —
the non-positive time delta is never divided by. -/
theorem oneEuroFilter_guards (s : OneEuroFilterState) (x t : ℝ) :
    (s.xPrev = none ∨ s.tPrev = none →
      OneEuroFilter.filter s x t =
        (x, { s with xPrev := some x, tPrev := some t })) ∧
    (∀ xp tp, s.xPrev = some xp → s.tPrev = some tp → t - tp ≤ 0 →
      OneEuroFilter.filter s x t = (xp, s)) := by
  constructor
  · intro h
    unfold OneEuroFilter.filter
    rcases h with h | h
    · rw [h]
    · rw [h]
      cases hx : s.xPrev
      · rfl
      · rfl
  · intro xp tp hxp htp hte
    unfold OneEuroFilter.filter
    rw [hxp, htp]
    simp only [if_pos hte]

/-- C9 witness: a fresh filter state returns the first sample 5 at time 3
unchanged and seeds its state; a seeded state (previous value 4 at time 7)
returns 4 unchanged on an out-of-order sample at time 3. -/
theorem oneEuroFilter_guards_witness :
    OneEuroFilter.filter
        { minCutoff := 1, beta := 0.5, dCutoff := 1, xPrev := none,
          dxPrev := 0, tPrev := none } 5 3 =
      (5, { minCutoff := 1, beta := 0.5, dCutoff := 1, xPrev := some 5,
            dxPrev := 0, tPrev := some 3 }) ∧
    OneEuroFilter.filter
        { minCutoff := 1, beta := 0.5, dCutoff := 1, xPrev := some 4,
          dxPrev := 0, tPrev := some 7 } 5 3 =
      (4, { minCutoff := 1, beta := 0.5, dCutoff := 1, xPrev := some 4,
            dxPrev := 0, tPrev := some 7 }) :=
  ⟨(oneEuroFilter_guards _ 5 3).1 (Or.inl rfl),
   (oneEuroFilter_guards _ 5 3).2 4 7 rfl rfl (by norm_num)⟩

/-! ## Launch angle clamp (`GrabDemo.tsx:96-128`)

`clampLaunchAngle` uses `Math.PI`, `Math.cos`, `Math.sin`, `Math.atan2` and
`Math.sqrt`, so it is embedded over `ℝ`. -/

/-- `MIN_LAUNCH_ANGLE = 30 * (Math.PI / 180)` (source: `GrabDemo.tsx:69`). -/
noncomputable def MIN_LAUNCH_ANGLE : ℝ := 30 * (Real.pi / 180)

theorem MIN_LAUNCH_ANGLE_eq : MIN_LAUNCH_ANGLE = Real.pi / 6 := by
  unfold MIN_LAUNCH_ANGLE
  ring

/-- `Math.atan2 y x` restricted to the arguments the source passes
(`x = Math.abs(launchX) ≥ 0` and `y = -launchY > 0`): `arctan (y / x)` for
`x > 0` and `π/2` on the vertical axis. -/
noncomputable def atan2Upper (y x : ℝ) : ℝ :=
  if x = 0 then Real.pi / 2 else Real.arctan (y / x)

/-- `clampLaunchAngle` (source: `GrabDemo.tsx:98-128`): the launch vector is
the negated pull vector; a downward or too-shallow launch is rotated to the
minimum elevation angle, keeping the magnitude and the horizontal sign. -/
noncomputable def clampLaunchAngle (pullX pullY : ℝ) : ℝ × ℝ :=
  let launchX := -pullX
  let launchY := -pullY
  if 0 ≤ launchY then
    let magnitude := Real.sqrt (launchX * launchX + launchY * launchY)
    let sign : ℝ := if 0 ≤ launchX then 1 else -1
    (sign * Real.cos MIN_LAUNCH_ANGLE * magnitude,
     -Real.sin MIN_LAUNCH_ANGLE * magnitude)
  else
    let angle := atan2Upper (-launchY) |launchX|
    if angle < MIN_LAUNCH_ANGLE then
      let magnitude := Real.sqrt (launchX * launchX + launchY * launchY)
      let sign : ℝ := if 0 ≤ launchX then 1 else -1
      (sign * Real.cos MIN_LAUNCH_ANGLE * magnitude,
       -Real.sin MIN_LAUNCH_ANGLE * magnitude)
    else
      (launchX, launchY)

/-- Elevation above the horizontal of a launch vector, measured exactly as
the source measures it (`Math.atan2(-launchY, Math.abs(launchX))`,
`GrabDemo.tsx:115`). -/
noncomputable def elevationAngle (v : ℝ × ℝ) : ℝ := atan2Upper (-v.2) |v.1|

theorem cos_MIN_pos : 0 < Real.cos MIN_LAUNCH_ANGLE := by
  rw [MIN_LAUNCH_ANGLE_eq, Real.cos_pi_div_six]
  positivity

theorem sin_MIN_pos : 0 < Real.sin MIN_LAUNCH_ANGLE := by
  rw [MIN_LAUNCH_ANGLE_eq, Real.sin_pi_div_six]
  norm_num

theorem MIN_lt_pi_div_two : MIN_LAUNCH_ANGLE < Real.pi / 2 := by
  rw [MIN_LAUNCH_ANGLE_eq]
  linarith [Real.pi_pos]

theorem neg_pi_div_two_lt_MIN : -(Real.pi / 2) < MIN_LAUNCH_ANGLE := by
  rw [MIN_LAUNCH_ANGLE_eq]
  linarith [Real.pi_pos]

/-- The clamped output vector has elevation exactly `MIN_LAUNCH_ANGLE`,
magnitude `m`, and a non-positive vertical component. -/
theorem clampedVec_props (σ : ℝ) (hσ : σ = 1 ∨ σ = -1) (m : ℝ) (hm : 0 < m) :
    elevationAngle (σ * Real.cos MIN_LAUNCH_ANGLE * m,
      -Real.sin MIN_LAUNCH_ANGLE * m) = MIN_LAUNCH_ANGLE ∧
    Real.sqrt ((σ * Real.cos MIN_LAUNCH_ANGLE * m) *
        (σ * Real.cos MIN_LAUNCH_ANGLE * m) +
      (-Real.sin MIN_LAUNCH_ANGLE * m) * (-Real.sin MIN_LAUNCH_ANGLE * m)) = m ∧
    -Real.sin MIN_LAUNCH_ANGLE * m ≤ 0 := by
  have hc := cos_MIN_pos
  have hs := sin_MIN_pos
  have hσ2 : |σ| = 1 := by rcases hσ with rfl | rfl <;> simp
  refine ⟨?_, ?_, ?_⟩
  · unfold elevationAngle atan2Upper
    dsimp only
    have hneg : -(-Real.sin MIN_LAUNCH_ANGLE * m) = Real.sin MIN_LAUNCH_ANGLE * m := by
      ring
    have habs : |σ * Real.cos MIN_LAUNCH_ANGLE * m| = Real.cos MIN_LAUNCH_ANGLE * m := by
      rw [abs_mul, abs_mul, hσ2, abs_of_pos hc, abs_of_pos hm, one_mul]
    rw [hneg, habs, if_neg (ne_of_gt (mul_pos hc hm))]
    have hdiv : Real.sin MIN_LAUNCH_ANGLE * m / (Real.cos MIN_LAUNCH_ANGLE * m) =
        Real.sin MIN_LAUNCH_ANGLE / Real.cos MIN_LAUNCH_ANGLE :=
      mul_div_mul_right _ _ (ne_of_gt hm)
    rw [hdiv, ← Real.tan_eq_sin_div_cos,
      Real.arctan_tan neg_pi_div_two_lt_MIN MIN_lt_pi_div_two]
  · have hid := Real.sin_sq_add_cos_sq MIN_LAUNCH_ANGLE
    have hsum : (σ * Real.cos MIN_LAUNCH_ANGLE * m) *
        (σ * Real.cos MIN_LAUNCH_ANGLE * m) +
        (-Real.sin MIN_LAUNCH_ANGLE * m) * (-Real.sin MIN_LAUNCH_ANGLE * m) =
        m * m := by
      rcases hσ with rfl | rfl <;> nlinarith [hid]
    rw [hsum, Real.sqrt_mul_self hm.le]
  · nlinarith [mul_pos hs hm]

/-- C7: for every nonzero pull vector, the clamped launch vector's elevation
above the horizontal is at least `MIN_LAUNCH_ANGLE` (30°), its magnitude
equals the magnitude of the un-clamped launch vector (the negated pull
vector), the horizontal sign is preserved (with the source's convention
that 0 counts as positive), and the vertical component never points
downward (y ≤ 0 in canvas coordinates). -/
theorem clampLaunchAngle_spec (pullX pullY : ℝ) (hp : ¬(pullX = 0 ∧ pullY = 0)) :
    MIN_LAUNCH_ANGLE ≤ elevationAngle (clampLaunchAngle pullX pullY) ∧
    Real.sqrt ((clampLaunchAngle pullX pullY).1 * (clampLaunchAngle pullX pullY).1 +
        (clampLaunchAngle pullX pullY).2 * (clampLaunchAngle pullX pullY).2) =
      Real.sqrt ((-pullX) * (-pullX) + (-pullY) * (-pullY)) ∧
    (0 ≤ -pullX → 0 ≤ (clampLaunchAngle pullX pullY).1) ∧
    (-pullX < 0 → (clampLaunchAngle pullX pullY).1 ≤ 0) ∧
    (clampLaunchAngle pullX pullY).2 ≤ 0 := by
  have hm2 : 0 < (-pullX) * (-pullX) + (-pullY) * (-pullY) := by
    rcases not_and_or.mp hp with h | h
    · have h1 : 0 < (-pullX) * (-pullX) := mul_self_pos.mpr (neg_ne_zero.mpr h)
      nlinarith [mul_self_nonneg (-pullY)]
    · have h1 : 0 < (-pullY) * (-pullY) := mul_self_pos.mpr (neg_ne_zero.mpr h)
      nlinarith [mul_self_nonneg (-pullX)]
  have hm : 0 < Real.sqrt ((-pullX) * (-pullX) + (-pullY) * (-pullY)) :=
    Real.sqrt_pos.mpr hm2
  have hc := cos_MIN_pos
  unfold clampLaunchAngle
  dsimp only
  split_ifs with h1 hσ h2 hσ
  · -- downward/zero launch, launchX ≥ 0
    obtain ⟨he, hmag, hy⟩ := clampedVec_props 1 (Or.inl rfl) _ hm
    exact ⟨le_of_eq he.symm, by rw [hmag], fun _ => by positivity,
      fun hx => absurd hσ (not_le.mpr hx), hy⟩
  · -- downward/zero launch, launchX < 0
    obtain ⟨he, hmag, hy⟩ := clampedVec_props (-1) (Or.inr rfl) _ hm
    refine ⟨le_of_eq he.symm, by rw [hmag], fun hx => absurd hx hσ, fun _ => ?_, hy⟩
    show -1 * Real.cos MIN_LAUNCH_ANGLE *
        Real.sqrt ((-pullX) * (-pullX) + (-pullY) * (-pullY)) ≤ 0
    nlinarith [mul_pos hc hm]
  · -- upward but too shallow, launchX ≥ 0
    obtain ⟨he, hmag, hy⟩ := clampedVec_props 1 (Or.inl rfl) _ hm
    exact ⟨le_of_eq he.symm, by rw [hmag], fun _ => by positivity,
      fun hx => absurd hσ (not_le.mpr hx), hy⟩
  · -- upward but too shallow, launchX < 0
    obtain ⟨he, hmag, hy⟩ := clampedVec_props (-1) (Or.inr rfl) _ hm
    refine ⟨le_of_eq he.symm, by rw [hmag], fun hx => absurd hx hσ, fun _ => ?_, hy⟩
    show -1 * Real.cos MIN_LAUNCH_ANGLE *
        Real.sqrt ((-pullX) * (-pullX) + (-pullY) * (-pullY)) ≤ 0
    nlinarith [mul_pos hc hm]
  · -- already steep enough: returned unchanged
    refine ⟨not_lt.mp h2, rfl, fun hx => hx, fun hx => le_of_lt hx, ?_⟩
    exact le_of_lt (not_le.mp h1)

/-- C7 witness: a straight-down pull (0, 1) — launch direction (0, -1) —
satisfies the clamp specification. -/
theorem clampLaunchAngle_spec_witness :
    MIN_LAUNCH_ANGLE ≤ elevationAngle (clampLaunchAngle 0 1) ∧
    Real.sqrt ((clampLaunchAngle 0 1).1 * (clampLaunchAngle 0 1).1 +
        (clampLaunchAngle 0 1).2 * (clampLaunchAngle 0 1).2) =
      Real.sqrt ((-(0:ℝ)) * (-(0:ℝ)) + (-(1:ℝ)) * (-(1:ℝ))) ∧
    (0 ≤ -(0:ℝ) → 0 ≤ (clampLaunchAngle 0 1).1) ∧
    (-(0:ℝ) < 0 → (clampLaunchAngle 0 1).1 ≤ 0) ∧
    (clampLaunchAngle 0 1).2 ≤ 0 :=
  clampLaunchAngle_spec 0 1 (by norm_num)

/-- C1 witness: the round-trip at the concrete address (3, 2) in the game's
actual configuration. -/
theorem grid_addressing_roundtrip_witness :
    (0 : ℤ) ≤ 3 ∧ (0 : ℤ) ≤ 2 ∧
      getGridPosition (gridToPosition 3 2 GAME_CONFIG) GAME_CONFIG = (3, 2) :=
  ⟨by norm_num, by norm_num,
    grid_addressing_roundtrip GAME_CONFIG 3 2 (by norm_num) (by norm_num)
      (by decide) (by norm_num [GAME_CONFIG]) (by decide)⟩

end BubbleShooter
